import Mathlib

/-!
Verification of the builtin-overload dispatch layer of
`tensorflow/python/autograph/operators/py_builtins.py`.

The module overloads a fixed set of host builtins (abs, float, int, len,
print, range, enumerate): on ordinary ("native") values each overload
delegates to the host builtin; on symbolic (tensor) values it builds a
staged operation instead.  A context evaluator
(`eval_in_original_context`) re-executes code against an ancestor call
frame.

Modelling conventions:
* Host (Python) values are the inductive `Native`; runtime values seen by
  the overloads are `Value`, which adds symbolic tensors, tensor arrays,
  datasets and the `UNSPECIFIED` sentinel (`Value.unspecified`).
* A symbolic tensor is represented by its construction-time metadata
  (`Tensor`): a dtype and a static shape, where `none` means the rank is
  unknown and `some dims` gives per-dimension sizes (`none` = unknown).
* Staged computations are represented by small syntax trees (e.g.
  `TensorLenOp`, `StagedRange`, `StagedPrint`); their later execution by
  the external engine is modelled by explicit evaluators
  (e.g. `execTensorLen`, which takes the shape the tensor turns out to
  have at execution time).
* Host builtins (Python's own abs, int, float, len, range, print,
  enumerate) are external collaborators; they are modelled by the
  `host*` functions.  Floating-point arithmetic is out of scope, so host
  floats are modelled only at integral values (`Native.floatv`).
* Python exception classes map to `PyErr` constructors: ValueError,
  TypeError, NotImplementedError (the spec's UnsupportedFeatureError),
  AttributeError (the spec's FrameResolutionError), IndexError.
  Execution-time failures of staged code use `RuntimeErr`
  (`assertionFailure` is the spec's RuntimeAssertionFailure).
-/

namespace Autograph

/-- Python exception classes raised at construction time. -/
inductive PyErr where
  | typeError (msg : String)
  | valueError (msg : String)
  | notImplementedError (msg : String)
  | attributeError (msg : String)
  | indexError (msg : String)
deriving DecidableEq

/-- Execution-time failures raised when the external engine runs a staged
computation. -/
inductive RuntimeErr where
  | assertionFailure (msg : String)
  | outOfRange (msg : String)
deriving DecidableEq

/-- Tensor element dtypes (only the ones the module inspects). -/
inductive DType where
  | float32
  | int32
  | string
  | variant
  | other
deriving DecidableEq

/-- Construction-time metadata of a symbolic tensor: dtype and static
shape.  `shape = none` models unknown rank; `shape = some dims` models
known rank with per-dimension sizes, `none` marking a dimension whose
size is unknown at construction time. -/
structure Tensor where
  dtype : DType
  shape : Option (List (Option Nat))
deriving DecidableEq

/-- Ordinary host (Python) values.  `floatv` models a host float holding
an integral value (floating-point arithmetic is out of scope).  `range`
holds start, stop and step of a host range object. -/
inductive Native where
  | int (i : Int)
  | floatv (i : Int)
  | str (s : String)
  | bool (b : Bool)
  | list (xs : List Native)
  | tuple (xs : List Native)
  | range (start stop step : Int)

/-- Runtime values the overloads dispatch on.  `unspecified` is the
module-level `UNSPECIFIED = object()` sentinel. -/
inductive Value where
  | native (n : Native)
  | tensor (t : Tensor)
  | tensorArray (handle : Nat)
  | dataset (handle : Nat)
  | unspecified

/-- Classification predicate `tensor_util.is_tensor`: true exactly for
symbolic tensors (tensor lists are variant-dtype tensors, hence also
tensors). -/
def is_tensor : Value → Bool
  | .tensor _ => true
  | _ => false

/-- Classification predicate `tensors.is_tensor_array`. -/
def is_tensor_array : Value → Bool
  | .tensorArray _ => true
  | _ => false

/-- Classification predicate `tensors.is_tensor_list`: a tensor whose
dtype is `variant`. -/
def is_tensor_list : Value → Bool
  | .tensor t => t.dtype == .variant
  | _ => false

/-- Identity test against the `UNSPECIFIED` sentinel
(`x is UNSPECIFIED` in the source). -/
def Value.isUnspecified : Value → Bool
  | .unspecified => true
  | _ => false

/-- Equality test against the literal `10`, used by the
`base not in (10, UNSPECIFIED)` check of `_tf_int`.  Host membership
tests with `==`, under which both the integer 10 and the float 10.0
equal 10 (a bool never does: True == 1, not 10). -/
def Value.isIntTen : Value → Bool
  | .native (.int 10) => true
  | .native (.floatv 10) => true
  | _ => false

/-- Rendering of a value for interpolation into error messages
(`str.format` in the host). -/
def pyFormat : Value → String
  | .native (.int i) => toString i
  | .native (.floatv i) => toString i ++ ".0"
  | .native (.str s) => s
  | .native (.bool b) => cond b "True" "False"
  | .native (.list _) => "<list>"
  | .native (.tuple _) => "<tuple>"
  | .native (.range _ _ _) => "<range>"
  | .tensor _ => "<tensor>"
  | .tensorArray _ => "<tensor-array>"
  | .dataset _ => "<dataset>"
  | .unspecified => "<object>"

/-- Rendering of a value by the host `print` (its `str`).  Container
contents are rendered opaquely: the exact repr of nested containers is
not needed by any claim. -/
def pyStrV : Value → String
  | .native (.int i) => toString i
  | .native (.floatv i) => toString i ++ ".0"
  | .native (.str s) => s
  | .native (.bool b) => cond b "True" "False"
  | .native (.list _) => "<list>"
  | .native (.tuple _) => "<tuple>"
  | .native (.range _ _ _) => "<range>"
  | .tensor _ => "<tensor>"
  | .tensorArray _ => "<tensor-array>"
  | .dataset _ => "<dataset>"
  | .unspecified => "<object>"

/-- Model of the host builtin `abs`. -/
def hostAbs : Native → Except PyErr Native
  | .int i => .ok (.int (Int.ofNat i.natAbs))
  | .floatv i => .ok (.floatv (Int.ofNat i.natAbs))
  | .bool b => .ok (.int (cond b 1 0))
  | _ => .error (.typeError "bad operand type for abs()")

/-- Model of the host builtin `float` (integral values only; see module
comment). -/
def hostFloat : Native → Except PyErr Native
  | .int i => .ok (.floatv i)
  | .floatv i => .ok (.floatv i)
  | .bool b => .ok (.floatv (cond b 1 0))
  | .str s =>
    match s.trim.toInt? with
    | some i => .ok (.floatv i)
    | none => .error (.valueError ("could not convert string to float: " ++ s))
  | _ => .error (.typeError "float() argument must be a string or a number")

/-- Model of the host builtin `int` called with one argument. -/
def hostInt : Native → Except PyErr Native
  | .int i => .ok (.int i)
  | .floatv i => .ok (.int i)
  | .bool b => .ok (.int (cond b 1 0))
  | .str s =>
    match s.trim.toInt? with
    | some i => .ok (.int i)
    | none => .error (.valueError ("invalid literal for int() with base 10: " ++ s))
  | _ => .error (.typeError "int() argument must be a string or a number")

/-- Value of a digit character, as accepted by the host `int` with an
explicit base. -/
def digitVal (c : Char) : Option Nat :=
  if c.isDigit then some (c.toNat - 48)
  else if 97 ≤ c.toNat && c.toNat ≤ 122 then some (c.toNat - 87)
  else if 65 ≤ c.toNat && c.toNat ≤ 90 then some (c.toNat - 55)
  else none

/-- Accumulating digit parser for the host `int` with an explicit base. -/
def parseDigits (b : Nat) : Nat → List Char → Option Nat
  | acc, [] => some acc
  | acc, c :: cs =>
    match digitVal c with
    | some d => if d < b then parseDigits b (acc * b + d) cs else none
    | none => none

/-- Parse a (trimmed, optionally signed) numeric literal in base `b`. -/
def parseIntInBase (s : String) (b : Nat) : Option Int :=
  match s.trim.toList with
  | [] => none
  | '-' :: cs =>
    if cs.isEmpty then none
    else (parseDigits b 0 cs).map (fun n => -(Int.ofNat n))
  | '+' :: cs =>
    if cs.isEmpty then none
    else (parseDigits b 0 cs).map Int.ofNat
  | cs => (parseDigits b 0 cs).map Int.ofNat

/-- Model of the host builtin `int` called with an explicit base. -/
def hostIntBase (x : Value) (base : Value) : Except PyErr Native :=
  match base with
  | .native (.int b) =>
    if 2 ≤ b ∧ b ≤ 36 then
      match x with
      | .native (.str s) =>
        match parseIntInBase s b.toNat with
        | some i => .ok (.int i)
        | none =>
          .error (.valueError
            ("invalid literal for int() with base " ++ toString b ++ ": " ++ s))
      | _ => .error (.typeError "int() cannot convert non-string with explicit base")
    else .error (.valueError "int() base must be >= 2 and <= 36")
  | _ => .error (.typeError "an integer is required")

/-- Number of elements of the host range with the given bounds and
nonzero step. -/
def rangeLen (a b c : Int) : Nat :=
  if 0 < c then ((b - a).toNat + (c.toNat - 1)) / c.toNat
  else ((a - b).toNat + ((-c).toNat - 1)) / (-c).toNat

/-- Model of the host builtin `len`. -/
def hostLen : Native → Except PyErr Nat
  | .str s => .ok s.length
  | .list xs => .ok xs.length
  | .tuple xs => .ok xs.length
  | .range a b c => .ok (rangeLen a b c)
  | _ => .error (.typeError "object has no len()")

/-- Index pairing used by the host builtin `enumerate`. -/
def enumFromInt (i : Int) : List Native → List Native
  | [] => []
  | x :: xs => .tuple [.int i, x] :: enumFromInt (i + 1) xs

/-- Model of the host builtin `enumerate` (materialized to a list). -/
def hostEnumerate (n : Native) (start : Int) : Except PyErr Native :=
  match n with
  | .list xs => .ok (.list (enumFromInt start xs))
  | .tuple xs => .ok (.list (enumFromInt start xs))
  | .str s => .ok (.list (enumFromInt start (s.toList.map (fun c => .str (String.singleton c)))))
  | _ => .error (.typeError "object is not iterable")

/-- Keyword-argument lookup (Python dict access on the kwargs dict). -/
def kwLookup (kwargs : List (String × Value)) (k : String) : Option Value :=
  (kwargs.find? (fun kv => kv.1 == k)).map Prod.snd

/-- Model of the host builtin `print`: the text written to the stream
(terminated by the `end` string).  `file` and `flush` only affect the
stream object and buffering, not the text, and are ignored here. -/
def hostPrint (objects : List Value) (kwargs : List (String × Value)) :
    Except PyErr String := do
  let sep ← match kwLookup kwargs "sep" with
    | none => pure " "
    | some (.native (.str s)) => pure s
    | some _ => throw (.typeError "sep must be None or a string")
  let endS ← match kwLookup kwargs "end" with
    | none => pure "\n"
    | some (.native (.str s)) => pure s
    | some _ => throw (.typeError "end must be None or a string")
  pure (String.intercalate sep (objects.map pyStrV) ++ endS)

/-! ## Staged operation descriptions -/

/-- Staged numeric operations produced by the tensor paths of `abs_`,
`float_` and `int_`. -/
inductive StagedNum where
  | absOp (t : Tensor)
  | stringToNumber (t : Tensor) (outType : DType)
  | cast (t : Tensor) (outType : DType)
deriving DecidableEq

/-- Result of a numeric overload: a host value or a staged operation. -/
inductive NumRes where
  | host (n : Native)
  | staged (op : StagedNum)

/-- Staged tensor-length computations produced by `_tf_tensor_len`:
`shape0 t` is `array_ops.shape(t)[0]`; `condLen t` is the conditional
`cond(rank(t) > 0, shape(t)[0], raise-assertion)`. -/
inductive TensorLenOp where
  | shape0 (t : Tensor)
  | condLen (t : Tensor)
deriving DecidableEq

/-- Result of `len_`: a plain host integer, a staged tensor-array size,
a staged tensor-list length, or a staged tensor-length computation. -/
inductive LenRes where
  | plain (n : Nat)
  | stagedArraySize (handle : Nat)
  | stagedListLen (t : Tensor)
  | staged (op : TensorLenOp)
deriving DecidableEq

/-- Value fed to a staged range op: either an argument as given, or a
staged elementwise maximum node (`math_ops.maximum`). -/
inductive StagedVal where
  | arg (v : Value)
  | maximum (a b : StagedVal)

/-- The staged range call built by `_tf_range`, by arity
(`math_ops.range`). -/
inductive StagedRange where
  | range1 (stopA : StagedVal)
  | range2 (startA stopA : StagedVal)
  | range3 (startA stopA stepA : StagedVal)

/-- The host range call made by `_py_range`, by arity, with the argument
values exactly as forwarded. -/
inductive RangeCall where
  | call1 (stop : Value)
  | call2 (start stop : Value)
  | call3 (start stop step : Value)

/-- Result of `range_`: a host range object or a staged range op. -/
inductive RangeRes where
  | host (n : Native)
  | staged (r : StagedRange)

/-- The deferred print node built by `_tf_py_func_print`: the wrapped
closure will call the native print on the materialized `wrappedObjects`
with `overrideKwargs`. -/
structure StagedPrint where
  wrappedObjects : List Value
  overrideKwargs : List (String × Value)
  useDummyReturn : Bool

/-- Result of `print_`: the text written by the native path, or a staged
py_func node. -/
inductive PrintRes where
  | printed (out : String)
  | stagedNode (p : StagedPrint)

/-- Result of `enumerate_`: a host enumeration or a staged dataset
enumeration. -/
inductive EnumRes where
  | host (n : Native)
  | stagedEnumerate (handle : Nat) (start : Int)

/-! ## Overload implementations (translated from the source) -/

/-- `_tf_abs`: staged absolute value. -/
def tf_abs (t : Tensor) : StagedNum := .absOp t

/-- `_py_abs`: delegate to the host builtin. -/
def py_abs (x : Value) : Except PyErr Native :=
  match x with
  | .native n => hostAbs n
  | _ => .error (.typeError "bad operand type for abs()")

/-- `abs_`: dispatch on `is_tensor`. -/
def abs_ (x : Value) : Except PyErr NumRes :=
  match x with
  | .tensor t => .ok (.staged (tf_abs t))
  | _ => (py_abs x).map NumRes.host

/-- `_tf_float`: staged string-to-number for string tensors, else a
staged cast to float32. -/
def tf_float (t : Tensor) : StagedNum :=
  if t.dtype == .string then .stringToNumber t .float32
  else .cast t .float32

/-- `_py_float`: delegate to the host builtin. -/
def py_float (x : Value) : Except PyErr Native :=
  match x with
  | .native n => hostFloat n
  | _ => .error (.typeError "float() argument must be a string or a number")

/-- `float_`: dispatch on `is_tensor`. -/
def float_ (x : Value) : Except PyErr NumRes :=
  match x with
  | .tensor t => .ok (.staged (tf_float t))
  | _ => (py_float x).map NumRes.host

/-- `_tf_int`: reject an explicit base other than 10
(`base not in (10, UNSPECIFIED)`), else staged string-to-number for
string tensors, else a staged cast to int32. -/
def tf_int (t : Tensor) (base : Value) : Except PyErr StagedNum :=
  if !(base.isIntTen || base.isUnspecified) then
    .error (.notImplementedError ("base " ++ pyFormat base ++ " not supported for int"))
  else if t.dtype == .string then .ok (.stringToNumber t .int32)
  else .ok (.cast t .int32)

/-- `_py_int`: `int(x)` when base is the sentinel, else `int(x, base)`. -/
def py_int (x : Value) (base : Value) : Except PyErr Native :=
  if base.isUnspecified then
    match x with
    | .native n => hostInt n
    | _ => .error (.typeError "int() argument must be a string or a number")
  else hostIntBase x base

/-- `int_`: dispatch on `is_tensor`. -/
def int_ (x : Value) (base : Value) : Except PyErr NumRes :=
  match x with
  | .tensor t => (tf_int t base).map NumRes.staged
  | _ => (py_int x base).map NumRes.host

/-- `_tf_tensor_array_len`: the tensor array's staged size op. -/
def tf_tensor_array_len (handle : Nat) : LenRes := .stagedArraySize handle

/-- `_tf_tensor_list_len`: the staged list-length op. -/
def tf_tensor_list_len (t : Tensor) : LenRes := .stagedListLen t

/-- Message of the construction-time error raised by `_tf_tensor_len`
for a tensor of known rank 0.  The host interpolates the repr of the
staged shape tensor, which on this (only reachable) branch has static
shape `(0,)`. -/
def nonScalarLenMsg : String :=
  "len requires a non-scalar tensor, got one of shape Tensor(shape=(0,), dtype=int32)"

/-- `_tf_tensor_len`, the graduated shape resolution:
* rank known and nonzero, leading dimension known
  (`s.shape.ndims and s.shape.dims[0].value is not None`) → that size as
  a plain integer;
* otherwise query the dynamic shape (`shape = array_ops.shape(s)`; the
  `assert shape.shape` always passes, a shape tensor being rank 1):
  if `shape.shape[0] == 0` (known rank 0) → construction-time
  ValueError; else if `shape.shape.dims[0].value is not None`
  (rank known) → the staged `shape(s)[0]`; else (rank unknown) → the
  staged conditional on the runtime rank. -/
def tf_tensor_len (t : Tensor) : Except PyErr LenRes :=
  match t.shape with
  | some (some n :: _) => .ok (.plain n)
  | some [] => .error (.valueError nonScalarLenMsg)
  | some (none :: _) => .ok (.staged (.shape0 t))
  | none => .ok (.staged (.condLen t))

/-- `_py_len`: delegate to the host builtin. -/
def py_len (s : Value) : Except PyErr Nat :=
  match s with
  | .native n => hostLen n
  | _ => .error (.typeError "object has no len()")

/-- `len_`: the ordered classification chain — tensor array, then tensor
list (variant-dtype tensor), then generic tensor, then native. -/
def len_ (s : Value) : Except PyErr LenRes :=
  match s with
  | .tensorArray h => .ok (tf_tensor_array_len h)
  | .tensor t =>
    if t.dtype == .variant then .ok (tf_tensor_list_len t)
    else tf_tensor_len t
  | _ => (py_len s).map LenRes.plain

/-- Execution-time semantics of a staged tensor-length op, given the
shape the subject tensor turns out to have when the external engine runs
the graph.  `shape0` reads the leading dimension; `condLen` checks the
runtime rank first and raises the staged assertion (message built by
`string_join` from the rendered rank) when it is zero. -/
def execTensorLen : TensorLenOp → List Nat → Except RuntimeErr Int
  | .shape0 _, r =>
    if h : 0 < r.length then .ok (Int.ofNat (r.get ⟨0, h⟩))
    else .error (.outOfRange "slice index 0 of dimension 0 out of bounds")
  | .condLen _, r =>
    if h : 0 < r.length then .ok (Int.ofNat (r.get ⟨0, h⟩))
    else .error (.assertionFailure ("len requires non-zero rank, got " ++ toString r.length))

/-- The recognized print keyword arguments (`sep`, `end`, `file`,
`flush`). -/
def recognizedPrintKeys : List String := ["sep", "end", "file", "flush"]

/-- The unrecognized keyword keys of a print call
(`set(kwargs.keys()) - set(('sep', 'end', 'file', 'flush'))`; the host
set is modelled as a deduplicated list, its iteration order being
unspecified). -/
def unknownKwargKeys (kwargs : List (String × Value)) : List String :=
  ((kwargs.map Prod.fst).filter (fun k => !recognizedPrintKeys.contains k)).dedup

/-- Message of the ValueError raised for unrecognized print keyword
arguments (the host formats the offending-key tuple; quoting of the keys
is elided). -/
def invalidKwargsMsg (ks : List String) : String :=
  "invalid keyword arguments: (" ++ String.intercalate ", " ks ++ ")"

/-- `_tf_py_func_print`: strip arguments still equal to the sentinel,
default `flush` to True when absent, and wrap the native print in a
py_func node with a dummy return. -/
def tf_py_func_print (objects : List Value) (kwargs : List (String × Value)) :
    StagedPrint :=
  let override_kwargs := kwargs.filter (fun kv => !kv.2.isUnspecified)
  let override_kwargs :=
    if (override_kwargs.map Prod.fst).contains "flush" then override_kwargs
    else override_kwargs ++ [("flush", Value.native (.bool true))]
  ⟨objects, override_kwargs, true⟩

/-- `print_`: validate the keyword set first (the host raises when the
unknown-key tuple is nonempty), then dispatch on whether any positional
argument is a tensor. -/
def print_ (objects : List Value) (kwargs : List (String × Value)) :
    Except PyErr PrintRes :=
  if unknownKwargKeys kwargs = [] then
    if objects.any is_tensor then .ok (.stagedNode (tf_py_func_print objects kwargs))
    else (hostPrint objects kwargs).map PrintRes.printed
  else .error (.valueError (invalidKwargsMsg (unknownKwargKeys kwargs)))

/-- `_tf_range`: with an explicit step, call the staged range op with
the arguments as given; with start and stop, clamp
`stop = maximum(start_or_stop, stop)`; with stop only, clamp it by
`maximum(start_or_stop, 0)`. -/
def tf_range (start_or_stop stop step : Value) : StagedRange :=
  if !step.isUnspecified then
    .range3 (.arg start_or_stop) (.arg stop) (.arg step)
  else if !stop.isUnspecified then
    .range2 (.arg start_or_stop) (.maximum (.arg start_or_stop) (.arg stop))
  else
    .range1 (.maximum (.arg start_or_stop) (.arg (.native (.int 0))))

/-- `_py_range`: the host range call made, by the same arity analysis,
with the argument values exactly as forwarded. -/
def py_range (start_or_stop stop step : Value) : RangeCall :=
  if !step.isUnspecified then .call3 start_or_stop stop step
  else if !stop.isUnspecified then .call2 start_or_stop stop
  else .call1 start_or_stop

/-- Conversion of a host range argument to an integer. -/
def asRangeInt : Value → Except PyErr Int
  | .native (.int i) => .ok i
  | .native (.bool b) => .ok (cond b 1 0)
  | _ => .error (.typeError "range() argument cannot be interpreted as an integer")

/-- Model of the host builtin `range` applied to a recorded call. -/
def evalRangeCall : RangeCall → Except PyErr Native
  | .call1 v => do
    let b ← asRangeInt v
    pure (.range 0 b 1)
  | .call2 v w => do
    let a ← asRangeInt v
    let b ← asRangeInt w
    pure (.range a b 1)
  | .call3 v w x => do
    let a ← asRangeInt v
    let b ← asRangeInt w
    let c ← asRangeInt x
    if c == 0 then throw (.valueError "range() arg 3 must not be zero")
    else pure (.range a b c)

/-- `range_`: dispatch on whether any of the three arguments is a
tensor. -/
def range_ (start_or_stop stop step : Value) : Except PyErr RangeRes :=
  if is_tensor start_or_stop || is_tensor stop || is_tensor step then
    .ok (.staged (tf_range start_or_stop stop step))
  else
    (evalRangeCall (py_range start_or_stop stop step)).map RangeRes.host

/-- `_tf_dataset_enumerate`: the dataset's staged index-pairing op. -/
def tf_dataset_enumerate (handle : Nat) (start : Int) : EnumRes :=
  .stagedEnumerate handle start

/-- `_py_enumerate`: delegate to the host builtin. -/
def py_enumerate (s : Value) (start : Int) : Except PyErr Native :=
  match s with
  | .native n => hostEnumerate n start
  | _ => .error (.typeError "object is not iterable")

/-- `enumerate_`: datasets take the staged path, everything else the
host builtin. -/
def enumerate_ (s : Value) (start : Int) : Except PyErr EnumRes :=
  match s with
  | .dataset h => .ok (tf_dataset_enumerate h start)
  | _ => (py_enumerate s start).map EnumRes.host

/-! ## Context evaluator -/

/-- A call frame: its global and local binding dicts (opaque values). -/
structure Frame where
  fGlobals : Value
  fLocals : Value

/-- The call made to the evaluation primitive: the target plus the
globals and locals arguments of the final tuple. -/
structure EvalCall where
  target : Value
  globalsArg : Value
  localsArg : Value

/-- One `f_back` step.  The current frame is `some (fr, older)` with
`older` the strictly older frames; the step past the last frame yields
`none` (the host's None), and a step from `none` raises the
AttributeError that surfaces when the stack is too shallow. -/
def fBack : Option (Frame × List Frame) →
    Except PyErr (Option (Frame × List Frame))
  | none => .error (.attributeError "NoneType object has no attribute f_back")
  | some (_, []) => .ok none
  | some (_, older :: rest) => .ok (some (older, rest))

/-- The `for _ in range(caller_level_delta + 1): ctx_frame = ctx_frame.f_back`
loop. -/
def walkFrames : Nat → Option (Frame × List Frame) →
    Except PyErr (Option (Frame × List Frame))
  | 0, ctx => .ok ctx
  | n + 1, ctx =>
    match fBack ctx with
    | .error e => .error e
    | .ok ctx2 => walkFrames n ctx2

/-- `eval_in_original_context`: walk `caller_level_delta + 1` frames up
from the evaluator's own frame (`own`, whose ancestors are
`ancestors`), then build the final argument tuple — `args[0]`, the
located frame's globals unless `args` supplies a second element, its
locals unless `args` supplies a third — and hand it to the evaluation
primitive (modelled by returning the built `EvalCall`).  Accessing
`f_globals`/`f_locals` on a missing frame raises AttributeError, exactly
as in the host. -/
def eval_in_original_context (args : List Value) (caller_level_delta : Nat)
    (own : Frame) (ancestors : List Frame) : Except PyErr EvalCall := do
  let ctx ← walkFrames (caller_level_delta + 1) (some (own, ancestors))
  let target ← match args.head? with
    | some t => pure t
    | none => throw (.indexError "tuple index out of range")
  let g ←
    if args.length < 2 then
      match ctx with
      | some (fr, _) => pure fr.fGlobals
      | none => throw (.attributeError "NoneType object has no attribute f_globals")
    else pure (args.getD 1 .unspecified)
  let l ←
    if args.length < 3 then
      match ctx with
      | some (fr, _) => pure fr.fLocals
      | none => throw (.attributeError "NoneType object has no attribute f_locals")
    else pure (args.getD 2 .unspecified)
  pure ⟨target, g, l⟩

/-! ## Helper lemmas -/

/-- Walking one step past the last frame yields the host's None. -/
theorem walkFrames_past_end (f : Frame) (anc : List Frame) :
    walkFrames (anc.length + 1) (some (f, anc)) = .ok none := by
  induction anc generalizing f with
  | nil => rfl
  | cons g rest ih =>
    show walkFrames (rest.length + 1 + 1) (some (f, g :: rest)) = .ok none
    simp only [walkFrames, fBack]
    exact ih g

/-- Walking any further than one step past the last frame raises the
f_back AttributeError. -/
theorem walkFrames_too_far (n : Nat) (f : Frame) (anc : List Frame)
    (h : anc.length + 1 < n) :
    walkFrames n (some (f, anc))
      = .error (.attributeError "NoneType object has no attribute f_back") := by
  induction n generalizing f anc with
  | zero => omega
  | succ m ih =>
    cases anc with
    | nil =>
      show walkFrames (m + 1) (some (f, [])) = _
      simp only [walkFrames, fBack]
      obtain ⟨k, rfl⟩ : ∃ k, m = k + 1 := ⟨m - 1, by omega⟩
      rfl
    | cons g rest =>
      show walkFrames (m + 1) (some (f, g :: rest)) = _
      simp only [walkFrames, fBack]
      exact ih g rest (by simpa using Nat.lt_of_succ_lt_succ h)

/-- Every failure of the host range argument conversion carries the same
TypeError message. -/
theorem asRangeInt_error_msg (v : Value) (e : PyErr)
    (h : asRangeInt v = .error e) :
    e = .typeError "range() argument cannot be interpreted as an integer" := by
  cases v with
  | native n => cases n <;> simp_all [asRangeInt]
  | tensor t => simp_all [asRangeInt]
  | tensorArray k => simp_all [asRangeInt]
  | dataset k => simp_all [asRangeInt]
  | unspecified => simp_all [asRangeInt]

/-- A three-argument host range call whose stop slot holds the sentinel
always fails with the conversion TypeError. -/
theorem evalRangeCall_unspecified_stop (a c : Value) :
    evalRangeCall (.call3 a .unspecified c)
      = .error (.typeError "range() argument cannot be interpreted as an integer") := by
  cases h : asRangeInt a with
  | ok i =>
    simp only [evalRangeCall, h]
    rfl
  | error e =>
    have := asRangeInt_error_msg a e h
    subst this
    simp only [evalRangeCall, h]
    rfl

/-! ## Claims -/

/-- C1: for every supported builtin (abs, float, int, len, print, range,
enumerate) and every non-symbolic (native) input, the overload's native
path returns the same result as the original host builtin; in
particular `len_("abc")` equals 3 and `range_(5)` equals `range(5)`. -/
theorem c1_native_path_matches_host :
    (∀ n : Native, abs_ (.native n) = (hostAbs n).map NumRes.host)
    ∧ (∀ n : Native, float_ (.native n) = (hostFloat n).map NumRes.host)
    ∧ (∀ n : Native, int_ (.native n) .unspecified = (hostInt n).map NumRes.host)
    ∧ (∀ (n : Native) (b : Value), b.isUnspecified = false →
        int_ (.native n) b = (hostIntBase (.native n) b).map NumRes.host)
    ∧ (∀ n : Native, len_ (.native n) = (hostLen n).map LenRes.plain)
    ∧ (∀ (objects : List Native) (kwargs : List (String × Value)),
        unknownKwargKeys kwargs = [] →
        print_ (objects.map .native) kwargs
          = (hostPrint (objects.map .native) kwargs).map PrintRes.printed)
    ∧ (∀ (a : Native) (b c : Value), is_tensor b = false → is_tensor c = false →
        range_ (.native a) b c
          = (evalRangeCall (py_range (.native a) b c)).map RangeRes.host)
    ∧ (∀ (n : Native) (start : Int),
        enumerate_ (.native n) start = (hostEnumerate n start).map EnumRes.host)
    ∧ len_ (.native (.str "abc")) = .ok (.plain 3)
    ∧ range_ (.native (.int 5)) .unspecified .unspecified
        = (evalRangeCall (.call1 (.native (.int 5)))).map RangeRes.host := by
  refine ⟨fun n => rfl, fun n => rfl, fun n => rfl, ?_, fun n => rfl, ?_, ?_,
    fun n start => rfl, rfl, rfl⟩
  · intro n b hb
    simp [int_, py_int, hb]
  · intro objects kwargs hk
    have hno : (objects.map Value.native).any is_tensor = false := by
      simp [List.any_map, Function.comp, is_tensor]
    simp [print_, hk, hno]
  · intro a b c hb hc
    have ha : is_tensor (.native a) = false := rfl
    simp [range_, ha, hb, hc]

/-- Witness for C1: the native path of range_ at (2, 5) with step
omitted produces the host range object. -/
theorem c1_native_path_matches_host_witness :
    range_ (.native (.int 2)) (.native (.int 5)) .unspecified
      = .ok (.host (.range 2 5 1)) := by
  have h := c1_native_path_matches_host.2.2.2.2.2.2.1
    (.int 2) (.native (.int 5)) .unspecified rfl rfl
  exact h.trans rfl

/-- C2: for a symbolic array (a non-variant tensor) whose rank is known
at construction time and whose leading dimension size is statically
known, len_ returns that size as a plain host integer — no staged
operation is emitted. -/
theorem c2_static_leading_dim_constant_fold :
    ∀ (t : Tensor) (n : Nat) (rest : List (Option Nat)),
      t.dtype ≠ .variant → t.shape = some (some n :: rest) →
      len_ (.tensor t) = .ok (.plain n) := by
  intro t n rest hd hs
  have hb : (t.dtype == DType.variant) = false := by
    simpa using hd
  simp [len_, hb, tf_tensor_len, hs]

/-- Witness for C2: static shape (3, 4) yields the plain integer 3. -/
theorem c2_static_leading_dim_constant_fold_witness :
    len_ (.tensor ⟨.float32, some [some 3, some 4]⟩) = .ok (.plain 3) :=
  c2_static_leading_dim_constant_fold ⟨.float32, some [some 3, some 4]⟩ 3 [some 4]
    (by decide) rfl

/-- C3: for a symbolic array whose rank is unknown at construction time,
len_ succeeds at construction with a staged conditional; at execution
time it returns the dynamic leading dimension when the runtime rank is
positive, and otherwise raises the staged assertion whose message embeds
the observed rank — "len requires non-zero rank, got 0" for a rank-0
value. -/
theorem c3_unknown_rank_staged_conditional :
    ∀ t : Tensor, t.dtype ≠ .variant → t.shape = none →
      len_ (.tensor t) = .ok (.staged (.condLen t))
      ∧ (∀ (d : Nat) (ds : List Nat),
          execTensorLen (.condLen t) (d :: ds) = .ok (Int.ofNat d))
      ∧ execTensorLen (.condLen t) []
          = .error (.assertionFailure "len requires non-zero rank, got 0") := by
  intro t hd hs
  have hb : (t.dtype == DType.variant) = false := by
    simpa using hd
  refine ⟨by simp [len_, hb, tf_tensor_len, hs],
    fun d ds => by simp [execTensorLen], rfl⟩

/-- Witness for C3: a dtype-float32 tensor of unknown rank. -/
theorem c3_unknown_rank_staged_conditional_witness :
    len_ (.tensor ⟨.float32, none⟩) = .ok (.staged (.condLen ⟨.float32, none⟩))
    ∧ execTensorLen (.condLen ⟨.float32, none⟩) []
        = .error (.assertionFailure "len requires non-zero rank, got 0") :=
  ⟨(c3_unknown_rank_staged_conditional ⟨.float32, none⟩ (by decide) rfl).1,
   (c3_unknown_rank_staged_conditional ⟨.float32, none⟩ (by decide) rfl).2.2⟩

/-- C4: for a symbolic array whose rank is known at construction time
but whose leading dimension size is not, len_ fails at construction with
the non-scalar ValueError when the shape descriptor is empty (known rank
0), and otherwise returns the staged leading-dimension value
`shape(s)[0]` (the shape query never makes the leading dimension
statically known, so the constant branch of the claim is vacuous).  The
spec words the message with "value" for the host's "tensor". -/
theorem c4_known_rank_dynamic_leading_dim :
    ∀ (t : Tensor) (dims : List (Option Nat)),
      t.dtype ≠ .variant → t.shape = some dims →
      (dims = [] → len_ (.tensor t) = .error (.valueError nonScalarLenMsg))
      ∧ (∀ rest, dims = none :: rest →
          len_ (.tensor t) = .ok (.staged (.shape0 t))
          ∧ ∀ (d : Nat) (ds : List Nat),
              execTensorLen (.shape0 t) (d :: ds) = .ok (Int.ofNat d)) := by
  intro t dims hd hs
  have hb : (t.dtype == DType.variant) = false := by
    simpa using hd
  constructor
  · intro h0
    subst h0
    simp [len_, hb, tf_tensor_len, hs]
  · intro rest hrest
    subst hrest
    exact ⟨by simp [len_, hb, tf_tensor_len, hs],
      fun d ds => by simp [execTensorLen]⟩

/-- Witness for C4: known rank 0 fails at construction; known rank 1
with unknown leading dimension yields the staged shape read. -/
theorem c4_known_rank_dynamic_leading_dim_witness :
    len_ (.tensor ⟨.float32, some []⟩) = .error (.valueError nonScalarLenMsg)
    ∧ len_ (.tensor ⟨.float32, some [none]⟩)
        = .ok (.staged (.shape0 ⟨.float32, some [none]⟩)) :=
  ⟨(c4_known_rank_dynamic_leading_dim ⟨.float32, some []⟩ [] (by decide) rfl).1 rfl,
   ((c4_known_rank_dynamic_leading_dim ⟨.float32, some [none]⟩ [none]
      (by decide) rfl).2 [] rfl).1⟩

/-- C5: on the staged path of range_, the arguments are transformed by
argument count before the staged range op is called: with all three
supplied no clamping is applied; with start and stop supplied, stop is
replaced by maximum(start, stop); with only stop supplied it is replaced
by maximum(stop, 0). -/
theorem c5_staged_range_clamping :
    ∀ a b c : Value,
      ((is_tensor a || is_tensor b || is_tensor c) = true →
        range_ a b c = .ok (.staged (tf_range a b c)))
      ∧ (c.isUnspecified = false →
          tf_range a b c = .range3 (.arg a) (.arg b) (.arg c))
      ∧ (c.isUnspecified = true → b.isUnspecified = false →
          tf_range a b c = .range2 (.arg a) (.maximum (.arg a) (.arg b)))
      ∧ (c.isUnspecified = true → b.isUnspecified = true →
          tf_range a b c
            = .range1 (.maximum (.arg a) (.arg (.native (.int 0))))) := by
  intro a b c
  refine ⟨fun h => by simp [range_, h], fun hc => by simp [tf_range, hc],
    fun hc hb => by simp [tf_range, hc, hb], fun hc hb => by simp [tf_range, hc, hb]⟩

/-- Witness for C5: staged range with a tensor stop and omitted step
clamps stop by maximum(start, stop). -/
theorem c5_staged_range_clamping_witness :
    tf_range (.native (.int 2)) (.tensor ⟨.int32, some []⟩) .unspecified
      = .range2 (.arg (.native (.int 2)))
          (.maximum (.arg (.native (.int 2))) (.arg (.tensor ⟨.int32, some []⟩))) :=
  (c5_staged_range_clamping (.native (.int 2)) (.tensor ⟨.int32, some []⟩)
    .unspecified).2.2.1 rfl rfl

/-- C6: on the staged path of int_, a supplied base other than 10 fails
with the NotImplementedError (the spec's UnsupportedFeatureError); with
base omitted or equal to 10 — equality being the host's ==, satisfied by
the integer 10 and the float 10.0 alike — the conversion is the staged
text-to-number op when the element kind is text, and otherwise a staged
cast to an integer representation. -/
theorem c6_staged_int_base_restriction :
    ∀ (t : Tensor) (base : Value),
      (base.isUnspecified = false → base.isIntTen = false →
        int_ (.tensor t) base
          = .error (.notImplementedError
              ("base " ++ pyFormat base ++ " not supported for int")))
      ∧ ((base.isIntTen = true ∨ base.isUnspecified = true) →
          (t.dtype == DType.string) = true →
          int_ (.tensor t) base = .ok (.staged (.stringToNumber t .int32)))
      ∧ ((base.isIntTen = true ∨ base.isUnspecified = true) →
          (t.dtype == DType.string) = false →
          int_ (.tensor t) base = .ok (.staged (.cast t .int32))) := by
  intro t base
  refine ⟨fun h1 h2 => by simp [int_, tf_int, h1, h2, Except.map],
    fun hb hs => ?_, fun hb hs => ?_⟩
  · rcases hb with hb | hb <;> simp [int_, tf_int, hb, hs, Except.map]
  · rcases hb with hb | hb <;> simp [int_, tf_int, hb, hs, Except.map]

/-- Witness for C6: base 16 is rejected; base 10 on a string tensor
yields the staged text-to-number op; the float base 10.0 equals 10
under the host's == and is converted, not rejected. -/
theorem c6_staged_int_base_restriction_witness :
    int_ (.tensor ⟨.int32, none⟩) (.native (.int 16))
      = .error (.notImplementedError "base 16 not supported for int")
    ∧ int_ (.tensor ⟨.string, none⟩) (.native (.int 10))
      = .ok (.staged (.stringToNumber ⟨.string, none⟩ .int32))
    ∧ int_ (.tensor ⟨.int32, none⟩) (.native (.floatv 10))
      = .ok (.staged (.cast ⟨.int32, none⟩ .int32)) :=
  ⟨((c6_staged_int_base_restriction ⟨.int32, none⟩ (.native (.int 16))).1
      rfl rfl).trans rfl,
   (c6_staged_int_base_restriction ⟨.string, none⟩ (.native (.int 10))).2.1
      (Or.inl rfl) rfl,
   (c6_staged_int_base_restriction ⟨.int32, none⟩ (.native (.floatv 10))).2.2
      (Or.inl rfl) rfl⟩

/-- C7: any print keyword argument whose key is outside the recognized
set (sep, end, file, flush — the spec's separator, terminator, stream,
flush) causes an immediate ValueError whose message is built from
exactly the offending-key list, the offending key among it; the check
runs before and regardless of the native/staged path (the statement
quantifies over arbitrary positional arguments, tensor or not). -/
theorem c7_print_rejects_unknown_kwargs :
    ∀ (objects : List Value) (kwargs : List (String × Value)) (k : String),
      k ∈ kwargs.map Prod.fst → k ∉ recognizedPrintKeys →
      print_ objects kwargs
        = .error (.valueError (invalidKwargsMsg (unknownKwargKeys kwargs)))
      ∧ k ∈ unknownKwargKeys kwargs := by
  intro objects kwargs k hk hnr
  have hmem : k ∈ unknownKwargKeys kwargs := by
    unfold unknownKwargKeys
    rw [List.mem_dedup]
    refine List.mem_filter.mpr ⟨hk, ?_⟩
    simpa using hnr
  have hne : unknownKwargKeys kwargs ≠ [] := List.ne_nil_of_mem hmem
  exact ⟨by simp [print_, hne], hmem⟩

/-- Witness for C7: print_(1, bogus=True) fails naming bogus. -/
theorem c7_print_rejects_unknown_kwargs_witness :
    print_ [.native (.int 1)] [("bogus", .native (.bool true))]
      = .error (.valueError "invalid keyword arguments: (bogus)")
    ∧ "bogus" ∈ unknownKwargKeys [("bogus", .native (.bool true))] := by
  have h := c7_print_rejects_unknown_kwargs [.native (.int 1)]
    [("bogus", .native (.bool true))] "bogus" (by simp) (by decide)
  exact ⟨h.1.trans rfl, h.2⟩

/-- C8: on the staged path of print_, the wrapped native print call
receives flush=True unless the caller supplied a (non-sentinel) flush
value, and every keyword argument still equal to the OmittedMarker
sentinel is stripped before the native print is invoked. -/
theorem c8_staged_print_flush_and_strip :
    ∀ (objects : List Value) (kwargs : List (String × Value)),
      (∀ kv ∈ (tf_py_func_print objects kwargs).overrideKwargs,
          kv.2.isUnspecified = false)
      ∧ (((kwargs.filter (fun kv => !kv.2.isUnspecified)).map
            Prod.fst).contains "flush" = true →
          (tf_py_func_print objects kwargs).overrideKwargs
            = kwargs.filter (fun kv => !kv.2.isUnspecified))
      ∧ (((kwargs.filter (fun kv => !kv.2.isUnspecified)).map
            Prod.fst).contains "flush" = false →
          (tf_py_func_print objects kwargs).overrideKwargs
            = kwargs.filter (fun kv => !kv.2.isUnspecified)
              ++ [("flush", Value.native (.bool true))])
      ∧ (tf_py_func_print objects kwargs).wrappedObjects = objects
      ∧ (tf_py_func_print objects kwargs).useDummyReturn = true := by
  intro objects kwargs
  refine ⟨?_, ?_, ?_, rfl, rfl⟩
  · intro kv hkv
    show kv.2.isUnspecified = false
    have hkv2 :
        kv ∈ (if ((kwargs.filter (fun kv => !kv.2.isUnspecified)).map
                Prod.fst).contains "flush"
              then kwargs.filter (fun kv => !kv.2.isUnspecified)
              else kwargs.filter (fun kv => !kv.2.isUnspecified)
                ++ [("flush", Value.native (.bool true))]) := hkv
    split at hkv2
    · simpa using (List.mem_filter.mp hkv2).2
    · rcases List.mem_append.mp hkv2 with hm | hm
      · simpa using (List.mem_filter.mp hm).2
      · simp only [List.mem_singleton] at hm
        subst hm
        rfl
  · intro h
    show (if ((kwargs.filter (fun kv => !kv.2.isUnspecified)).map
            Prod.fst).contains "flush"
          then kwargs.filter (fun kv => !kv.2.isUnspecified)
          else kwargs.filter (fun kv => !kv.2.isUnspecified)
            ++ [("flush", Value.native (.bool true))])
        = kwargs.filter (fun kv => !kv.2.isUnspecified)
    rw [h]
    simp
  · intro h
    show (if ((kwargs.filter (fun kv => !kv.2.isUnspecified)).map
            Prod.fst).contains "flush"
          then kwargs.filter (fun kv => !kv.2.isUnspecified)
          else kwargs.filter (fun kv => !kv.2.isUnspecified)
            ++ [("flush", Value.native (.bool true))])
        = kwargs.filter (fun kv => !kv.2.isUnspecified)
          ++ [("flush", Value.native (.bool true))]
    rw [h]
    simp

/-- Witness for C8: a kwargs dict whose only entry holds the sentinel is
stripped and flush defaults to True. -/
theorem c8_staged_print_flush_and_strip_witness :
    (tf_py_func_print [.native (.int 1)] [("sep", Value.unspecified)]).overrideKwargs
      = [("flush", Value.native (.bool true))] :=
  ((c8_staged_print_flush_and_strip [.native (.int 1)]
    [("sep", Value.unspecified)]).2.2.1 rfl).trans rfl

/-- C9 counterexample: with an empty ancestor stack (shallower than
caller_level_delta + 1 = 1 frames above the evaluator's own frame) but
three positional arguments supplied, eval_in_original_context succeeds
instead of failing: neither f_globals nor f_locals of the missing frame
is ever consulted. -/
theorem c9_counterexample_shallow_stack_succeeds :
    eval_in_original_context
        [.native (.str "x + 1"), .native (.int 7), .native (.int 8)] 0
        ⟨.native (.int 0), .native (.int 1)⟩ []
      = .ok ⟨.native (.str "x + 1"), .native (.int 7), .native (.int 8)⟩ := rfl

/-- Bool test for the frame-resolution failure (the AttributeError the
spec calls FrameResolutionError). -/
def isFrameResolutionError : Except PyErr EvalCall → Bool
  | .error (.attributeError _) => true
  | _ => false

/-- C9 amended: with the frame stack shallower than
caller_level_delta + 1 frames above the evaluator's own frame, the call
fails with FrameResolutionError whenever the located frame would
actually be consulted: always when the stack is more than one frame
short, and, when it is short by exactly one, whenever fewer than three
positional arguments are supplied. -/
theorem c9_amended_shallow_stack_fails :
    ∀ (args : List Value) (delta : Nat) (own : Frame) (ancestors : List Frame),
      ancestors.length ≤ delta →
      (ancestors.length < delta ∨ (1 ≤ args.length ∧ args.length < 3)) →
      isFrameResolutionError
        (eval_in_original_context args delta own ancestors) = true := by
  intro args delta own ancestors hle hcase
  rcases Nat.lt_or_ge ancestors.length delta with hlt | hge
  · have hw := walkFrames_too_far (delta + 1) own ancestors (by omega)
    have he : eval_in_original_context args delta own ancestors
        = .error (.attributeError "NoneType object has no attribute f_back") := by
      unfold eval_in_original_context
      rw [hw]
      rfl
    rw [he]
    rfl
  · have heq : ancestors.length = delta := Nat.le_antisymm hle hge
    have hw : walkFrames (delta + 1) (some (own, ancestors)) = .ok none := by
      rw [← heq]
      exact walkFrames_past_end own ancestors
    have hargs : 1 ≤ args.length ∧ args.length < 3 := by
      rcases hcase with hlt | h
      · omega
      · exact h
    rcases args with _ | ⟨a, args2⟩
    · exact absurd hargs.1 (by simp)
    rcases args2 with _ | ⟨b, args3⟩
    · have he : eval_in_original_context [a] delta own ancestors
          = .error (.attributeError "NoneType object has no attribute f_globals") := by
        unfold eval_in_original_context
        rw [hw]
        rfl
      rw [he]
      rfl
    rcases args3 with _ | ⟨c2, args4⟩
    · have he : eval_in_original_context [a, b] delta own ancestors
          = .error (.attributeError "NoneType object has no attribute f_locals") := by
        unfold eval_in_original_context
        rw [hw]
        rfl
      rw [he]
      rfl
    · exfalso
      have := hargs.2
      simp [List.length_cons] at this
      omega

/-- Witness for C9 amended: empty ancestor stack, delta 0, one
argument. -/
theorem c9_amended_shallow_stack_fails_witness :
    isFrameResolutionError
      (eval_in_original_context [.native (.str "e")] 0
        ⟨.native (.int 0), .native (.int 1)⟩ []) = true :=
  c9_amended_shallow_stack_fails [.native (.str "e")] 0
    ⟨.native (.int 0), .native (.int 1)⟩ [] (by decide)
    (Or.inr (by decide))

/-- C10: when range_ is called with step supplied but stop omitted, the
OmittedMarker sentinel itself is forwarded as the stop argument to the
underlying host or staged range call on both paths; on the native path
the escaped sentinel makes the host range call fail with its argument
TypeError. -/
theorem c10_sentinel_forwarded_as_stop :
    ∀ (a c : Value), c.isUnspecified = false →
      py_range a .unspecified c = .call3 a .unspecified c
      ∧ tf_range a .unspecified c
          = .range3 (.arg a) (.arg .unspecified) (.arg c)
      ∧ (is_tensor a = false → is_tensor c = false →
          range_ a .unspecified c
            = .error (.typeError
                "range() argument cannot be interpreted as an integer")) := by
  intro a c hc
  refine ⟨by simp [py_range, hc], by simp [tf_range, hc], fun ha hcc => ?_⟩
  have h3 : py_range a .unspecified c = .call3 a .unspecified c := by
    simp [py_range, hc]
  have hu : is_tensor .unspecified = false := rfl
  simp [range_, ha, hcc, hu, h3, evalRangeCall_unspecified_stop, Except.map]

/-- Witness for C10: range_(3, step=1) with stop omitted forwards the
sentinel and fails on the native path. -/
theorem c10_sentinel_forwarded_as_stop_witness :
    py_range (.native (.int 3)) .unspecified (.native (.int 1))
      = .call3 (.native (.int 3)) .unspecified (.native (.int 1))
    ∧ range_ (.native (.int 3)) .unspecified (.native (.int 1))
      = .error (.typeError "range() argument cannot be interpreted as an integer") := by
  have h := c10_sentinel_forwarded_as_stop (.native (.int 3)) (.native (.int 1)) rfl
  exact ⟨h.1, h.2.2 rfl rfl⟩

end Autograph
